import Mathlib

/-!
Verification development for the Caltrain commuter transit schedule
resolution engine.  The definitions below are a shallow embedding of the
TypeScript source (the GTFS static parser module, the GTFS-realtime module,
and their direct collaborators).  Absolute instants are represented as
epoch milliseconds (`Int`), GTFS clock fields as hour/minute/second
triples, and YYYYMMDD dates as natural numbers in canonical form.
-/

set_option autoImplicit false

namespace Caltrain

/-! ## Calendar arithmetic

The source composes instants by building ISO-8601 strings with an explicit
UTC offset and letting the JavaScript `Date` parser turn them into epoch
milliseconds.  We embed that arithmetic directly: `daysFromCivil` is the
day number of a proleptic-Gregorian civil date relative to 1970-01-01, so
the epoch value of `Y-M-D hh:mm:ss` at UTC offset `-o` is
`daysFromCivil Y M D * 86400000 + hh*3600000 + mm*60000 + ss*1000 + o`.
-/

/-- Day count of a civil date relative to 1970-01-01 (Gregorian). -/
def daysFromCivil (y m d : Int) : Int :=
  let y2 : Int := if m ≤ 2 then y - 1 else y
  let era : Int := (if 0 ≤ y2 then y2 else y2 - 399) / 400
  let yoe : Int := y2 - era * 400
  let mp : Int := if m > 2 then m - 3 else m + 9
  let doy : Int := (153 * mp + 2) / 5 + d - 1
  let doe : Int := yoe * 365 + yoe / 4 - yoe / 100 + doy
  era * 146097 + doe - 719468

/-- Gregorian leap-year test. -/
def isLeap (y : Nat) : Bool :=
  (y % 4 == 0 && y % 100 != 0) || y % 400 == 0

/-- Number of days in a month of a given year. -/
def daysInMonth (y m : Nat) : Nat :=
  if m == 2 then (if isLeap y then 29 else 28)
  else if m == 4 || m == 6 || m == 9 || m == 11 then 30
  else 31

/-- The civil date one day after the given one (the embedding of
JavaScript `Date.setDate(getDate() + 1)` calendar rollover). -/
def nextDay : Nat × Nat × Nat → Nat × Nat × Nat
  | (y, m, d) =>
    if d < daysInMonth y m then (y, m, d + 1)
    else if m < 12 then (y, m + 1, 1)
    else (y + 1, 1, 1)

/-- Advance a civil date by `n` days. -/
def addDays (x : Nat × Nat × Nat) : Nat → Nat × Nat × Nat
  | 0 => x
  | n + 1 => nextDay (addDays x n)

/-- Day of week of a civil date, 0 = Sunday (1970-01-01 was a Thursday). -/
def dayOfWeekOf (y m d : Nat) : Int :=
  (daysFromCivil (y : Int) (m : Int) (d : Int) + 4) % 7

/-- Whether noon UTC of the given civil date falls in US Pacific Daylight
Time.  This embeds the source's probe
`new Date(year-month-day T12:00:00Z).toLocaleString(America/Los_Angeles)`
containing "PDT": by the US rule documented in the source comments, DST
runs from the second Sunday of March (noon UTC of that day is already
past the 02:00 spring-forward) up to, and excluding, the first Sunday of
November (noon UTC of that day is already past the fall-back). -/
def isPDT (y m d : Nat) : Bool :=
  let firstSundayMarch : Int := 1 + (7 - dayOfWeekOf y 3 1) % 7
  let secondSundayMarch : Int := firstSundayMarch + 7
  let firstSundayNov : Int := 1 + (7 - dayOfWeekOf y 11 1) % 7
  (decide (3 < m) || (m == 3 && decide (secondSundayMarch ≤ (d : Int)))) &&
    (decide (m < 11) || (m == 11 && decide ((d : Int) < firstSundayNov)))

/-- UTC offset (in milliseconds to add to Pacific wall-clock time) chosen
by the source from the PDT/PST probe: `-07:00` under PDT, `-08:00` under
PST. -/
def pacOffsetMs (y m d : Nat) : Int :=
  if isPDT y m d then 7 * 3600000 else 8 * 3600000

/-! ## Trip time materialization

Embeds the body of `getScheduledTrains` that turns a GTFS clock field
(hours may exceed 24) plus the Pacific civil date of the query into an
epoch-millisecond instant.  The source computes `dayOffset = floor(h/24)`,
`hourOfDay = h % 24`, advances the civil date by `dayOffset` via
`setDate`, and builds the ISO string with the UTC offset probed from the
BASE service date (`year-month-day`), not from the advanced date. -/

/-- Materialized instant (epoch ms) of clock field `h:mi:s` on Pacific
service date `y-m-d`, exactly as `getScheduledTrains` computes it: the
civil date is advanced by `h / 24` days but the UTC offset is the one in
effect on the service date itself. -/
def materializeMs (y m d h mi s : Nat) : Int :=
  (daysFromCivil (y : Int) (m : Int) (d : Int) + ((h / 24 : Nat) : Int)) * 86400000
    + ((h % 24 : Nat) : Int) * 3600000 + (mi : Int) * 60000 + (s : Int) * 1000
    + pacOffsetMs y m d

/-- The materialization the specification describes for claim C1: same
civil-date advance, but the UTC offset is the one in effect on the LATER
civil date `D + h / 24` days.  Written from the spec's words, to be
compared with `materializeMs`. -/
def specMaterializeMs (y m d h mi s : Nat) : Int :=
  let later := addDays (y, m, d) (h / 24)
  (daysFromCivil (y : Int) (m : Int) (d : Int) + ((h / 24 : Nat) : Int)) * 86400000
    + ((h % 24 : Nat) : Int) * 3600000 + (mi : Int) * 60000 + (s : Int) * 1000
    + pacOffsetMs later.1 later.2.1 later.2.2

/-! ## Static GTFS data model -/

/-- A GTFS clock field HH:MM:SS; the source keeps these as strings and
parses them with `split(':')` and `parseInt`, we keep the parsed triple. -/
structure HMS where
  h : Nat
  mi : Nat
  s : Nat
  deriving DecidableEq

/-- A row of stop_times.txt (clock fields already split, see `HMS`). -/
structure GTFSStopTime where
  trip_id : String
  arrival_time : HMS
  departure_time : HMS
  stop_id : String
  stop_sequence : Nat
  deriving DecidableEq

/-- A row of trips.txt. -/
structure GTFSTrip where
  trip_id : String
  route_id : String
  service_id : String
  trip_short_name : String
  trip_headsign : String
  direction_id : String
  deriving DecidableEq

/-- A row of calendar.txt; weekday flags are '1'/'0' strings in the
source, embedded as `Bool`; dates are canonical YYYYMMDD numerals. -/
structure GTFSCalendar where
  service_id : String
  monday : Bool
  tuesday : Bool
  wednesday : Bool
  thursday : Bool
  friday : Bool
  saturday : Bool
  sunday : Bool
  start_date : Nat
  end_date : Nat
  deriving DecidableEq

/-- A row of calendar_dates.txt; `exception_type` is the source's string
field ("1" = service added, "2" = service removed). -/
structure GTFSCalendarDate where
  service_id : String
  date : Nat
  exception_type : String
  deriving DecidableEq

/-- Weekday flag of a calendar row selected by day-of-week index,
0 = Sunday, as the source's `dayNames[dayOfWeek]` lookup does; an index
outside 0..6 reads an undefined property and the '1' comparison fails. -/
def calDayFlag (cal : GTFSCalendar) (dow : Nat) : Bool :=
  match dow with
  | 0 => cal.sunday
  | 1 => cal.monday
  | 2 => cal.tuesday
  | 3 => cal.wednesday
  | 4 => cal.thursday
  | 5 => cal.friday
  | 6 => cal.saturday
  | _ => false

/-! ## Calendar resolver (`getActiveServiceId`)

The source first normalizes the query instant to a Pacific day-of-week
and a YYYYMMDD string (`getPacificTimeInfo`, a wrapper over the runtime's
IANA timezone database); the embedding takes the normalized pair as
input, which is also how the claim states it. -/

/-- The calendar scan loop of `getActiveServiceId`: skip a row whose
range misses the date, skip a row with a removed-exception for this date,
return the first remaining row whose weekday flag is set. -/
def scanCalendar (dateN dow : Nat) (calendarDates : List GTFSCalendarDate) :
    List GTFSCalendar → Option String
  | [] => none
  | cal :: rest =>
    if dateN < cal.start_date || cal.end_date < dateN then
      scanCalendar dateN dow calendarDates rest
    else if (calendarDates.find? (fun cd =>
        cd.date == dateN && cd.service_id == cal.service_id &&
          cd.exception_type == "2")).isSome then
      scanCalendar dateN dow calendarDates rest
    else if calDayFlag cal dow then
      some cal.service_id
    else
      scanCalendar dateN dow calendarDates rest

/-- `getActiveServiceId` from the source, on normalized inputs: an added
exception for the exact date short-circuits; otherwise the calendar rows
are scanned in dataset order. -/
def getActiveServiceId (dow dateN : Nat) (calendar : List GTFSCalendar)
    (calendarDates : List GTFSCalendarDate) : Option String :=
  match calendarDates.find? (fun cd =>
      cd.date == dateN && cd.exception_type == "1") with
  | some cd => some cd.service_id
  | none => scanCalendar dateN dow calendarDates calendar

/-- The calendar resolver as the specification words it (claim C2): the
added exception for the date wins; otherwise the first calendar in
dataset order whose inclusive range contains the date, whose weekday flag
is set, and with no removed exception for (serviceId, date). -/
def activeServiceSpec (dow dateN : Nat) (calendar : List GTFSCalendar)
    (calendarDates : List GTFSCalendarDate) : Option String :=
  match calendarDates.find? (fun cd =>
      cd.date == dateN && cd.exception_type == "1") with
  | some cd => some cd.service_id
  | none =>
    (calendar.find? (fun cal =>
      decide (cal.start_date ≤ dateN) && decide (dateN ≤ cal.end_date) &&
        calDayFlag cal dow &&
        !(calendarDates.find? (fun cd =>
            cd.date == dateN && cd.service_id == cal.service_id &&
              cd.exception_type == "2")).isSome)).map (fun cal => cal.service_id)

/-! ## Train classification -/

/-- Train service pattern classes. -/
inductive TrainType where
  | Local
  | Limited
  | Express
  deriving DecidableEq

/-- Classification of a trip by its total stop count, from
`getScheduledTrains`: 20 or more stops is Local, 13 to 19 is Limited,
fewer than 13 is Express. -/
def trainTypeOfCount (n : Nat) : TrainType :=
  if n ≥ 20 then TrainType.Local
  else if n ≥ 13 then TrainType.Limited
  else TrainType.Express

/-- Stop count of a trip: the number of stop-time rows bearing its
trip id (`gtfsCache.stopTimes.filter(...).length`). -/
def tripStopCount (stopTimes : List GTFSStopTime) (tripId : String) : Nat :=
  (stopTimes.filter (fun st => st.trip_id == tripId)).length

/-- Trip classification as computed by the source. -/
def trainTypeOf (stopTimes : List GTFSStopTime) (tripId : String) : TrainType :=
  trainTypeOfCount (tripStopCount stopTimes tripId)

/-! ## GTFS-realtime model (gtfs-realtime.ts) -/

/-- An arrival or departure event of a stop-time update (delay in
seconds, time as a unix timestamp). -/
structure EventUpdate where
  delay : Int
  time : Int
  deriving DecidableEq

/-- A stop-time update of the realtime feed. -/
structure StopTimeUpdate where
  stopId : String
  stopSequence : Nat
  arrival : Option EventUpdate
  departure : Option EventUpdate
  scheduleRelationship : Option String
  deriving DecidableEq

/-- A trip update of the realtime feed. -/
structure TripUpdate where
  tripId : String
  routeId : String
  startDate : String
  startTime : String
  stopTimeUpdates : List StopTimeUpdate
  deriving DecidableEq

/-- Trip delay status. -/
inductive DelayStatus where
  | onTime
  | delayed
  | cancelled
  deriving DecidableEq

/-- The record returned by `getTripDelay` / `calculateTripDelay`. -/
structure DelayInfo where
  delay : Int
  status : DelayStatus
  deriving DecidableEq

/-- Whether a stop-time update carries a SKIPPED or CANCELED schedule
relationship. -/
def isCancelRel (stu : StopTimeUpdate) : Bool :=
  stu.scheduleRelationship == some "SKIPPED" ||
    stu.scheduleRelationship == some "CANCELED"

/-- The JavaScript expression
`stop.departure?.delay || stop.arrival?.delay || 0`: a missing event or a
zero delay falls through to the next alternative. -/
def stuDelay (stu : StopTimeUpdate) : Int :=
  let depD : Int := match stu.departure with
    | some e => e.delay
    | none => 0
  if depD ≠ 0 then depD
  else match stu.arrival with
    | some e => e.delay
    | none => 0

/-- JavaScript `Math.round(s / 60)` on an integer number of seconds:
round half toward positive infinity. -/
def jsRound60 (s : Int) : Int :=
  Int.fdiv (s + 30) 60

/-- The scan of `calculateTripDelay`: walk the stop-time updates keeping
the delay of maximum absolute magnitude, breaking out (cancelled) at the
first SKIPPED/CANCELED stop.  Returns the accumulated max-magnitude delay
in seconds and the cancellation flag. -/
def calcLoop : List StopTimeUpdate → Int → Int × Bool
  | [], acc => (acc, false)
  | stu :: rest, acc =>
    if isCancelRel stu then (acc, true)
    else calcLoop rest
      (if (stuDelay stu).natAbs > acc.natAbs then stuDelay stu else acc)

/-- `calculateTripDelay` from gtfs-realtime.ts: null on an empty update
list, otherwise the max-magnitude per-stop delay rounded to minutes with
an on-time/delayed/cancelled status. -/
def calculateTripDelay (update : TripUpdate) : Option DelayInfo :=
  if update.stopTimeUpdates.isEmpty then none
  else
    let p := calcLoop update.stopTimeUpdates 0
    let delayMinutes := jsRound60 p.1
    let status :=
      if p.2 then DelayStatus.cancelled
      else if delayMinutes.natAbs ≥ 1 then DelayStatus.delayed
      else DelayStatus.onTime
    some { delay := delayMinutes, status := status }

/-- `getTripDelay` from gtfs-realtime.ts: exact trip-id match first, then
an optional train-number fallback (equal id or a `-number` suffix). -/
def getTripDelay (updates : List TripUpdate) (tripId : String)
    (trainNumber : Option String) : Option DelayInfo :=
  match updates.find? (fun u => u.tripId == tripId) with
  | some u => calculateTripDelay u
  | none =>
    match trainNumber with
    | some tn =>
      match updates.find? (fun u =>
          u.tripId == tn || u.tripId.endsWith ("-" ++ tn)) with
      | some u => calculateTripDelay u
      | none => none
    | none => none

/-! ## Scraped delays and the delay overlay -/

/-- Modelled from the spec: the `TrainDelay` record of the scraped delay
source (the caltrain-alerts-scraper module is absent from src); the spec's
ScrapedDelay is keyed by the human-visible train number and carries a
delay in minutes. -/
structure TrainDelay where
  trainShortName : String
  delayMinutes : Int
  deriving DecidableEq

/-- A JavaScript `Map<string, TrainDelay>` as an association list;
`get` returns the entry of the (unique) matching key. -/
def mapGet (m : List (String × TrainDelay)) (k : String) : Option TrainDelay :=
  (m.find? (fun p => p.1 == k)).map (fun p => p.2)

/-- The delay overlay inlined in `getScheduledTrains`: first the realtime
feed (exact trip-id match, applied when its rounded delay is nonzero),
then, only when the feed left the departure untouched, the scraped map
keyed by the train short name.  Returns the actual (delay-adjusted)
departure and arrival instants in epoch ms. -/
def overlay (tripId trainShortName : String) (schedDepMs schedArrMs : Int)
    (tripUpdates : List TripUpdate) (caltrainAlerts : List (String × TrainDelay)) :
    Int × Int :=
  let feedApplied : Int × Int :=
    if tripUpdates.length > 0 then
      match getTripDelay tripUpdates tripId none with
      | some delayInfo =>
        if delayInfo.delay ≠ 0 then
          (schedDepMs + delayInfo.delay * 60 * 1000,
           schedArrMs + delayInfo.delay * 60 * 1000)
        else (schedDepMs, schedArrMs)
      | none => (schedDepMs, schedArrMs)
    else (schedDepMs, schedArrMs)
  if feedApplied.1 == schedDepMs && caltrainAlerts.length > 0 then
    match mapGet caltrainAlerts trainShortName with
    | some alertDelay =>
      (schedDepMs + alertDelay.delayMinutes * 60 * 1000,
       schedArrMs + alertDelay.delayMinutes * 60 * 1000)
    | none => feedApplied
  else feedApplied

/-- The inclusion test of `getScheduledTrains`: drop a trip whose actual
arrival is already past; a trip whose actual departure is past survives
only if a delay was applied (`actualDeparture !== scheduledDeparture`). -/
def includeTrain (schedDepMs actualDepMs actualArrMs nowMs : Int) : Bool :=
  if actualArrMs < nowMs then false
  else if actualDepMs < nowMs then actualDepMs != schedDepMs
  else true

/-! ## Station mapping -/

/-- Modelled from the spec: the station records of the stations module
(the stations file is absent from src).  Only the public identifier and
code are consumed by the engine; the stations list is ordered
geographically north to south, which is what the direction derivation
relies on. -/
structure Station where
  id : String
  code : String
  deriving DecidableEq

/-- Modelled from the spec: `getStationById` of the stations module looks
a station up by its public identifier. -/
def getStationById (stations : List Station) (stationId : String) : Option Station :=
  stations.find? (fun s => s.id == stationId)

/-- JavaScript `Array.findIndex`: index of the first match, or -1. -/
def jsFindIndex {α : Type} (p : α → Bool) : List α → Int
  | [] => -1
  | a :: rest =>
    if p a then 0
    else
      let r := jsFindIndex p rest
      if r == -1 then -1 else r + 1

/-- The station-code table of `findGTFSStopId`, mapping public station
codes to GTFS base stop numbers. -/
def codeMapping : List (String × String) :=
  [("SF", "7001"), ("22ND", "7002"), ("BAYSHORE", "7003"), ("SSF", "7004"),
   ("SB", "7005"), ("MB", "7006"), ("MILLBRAE", "7006"), ("BURLINGAME", "7008"),
   ("SM", "7009"), ("HAYWARD", "7010"), ("HILLSDALE", "7011"), ("BELMONT", "7012"),
   ("SC", "7013"), ("SAN CARLOS", "7013"), ("RW", "7014"), ("REDWOOD", "7014"),
   ("MP", "7016"), ("MENLO", "7016"), ("PA", "7017"), ("PALO ALTO", "7017"),
   ("STANFORD", "253774"), ("CALAVEUE", "7019"), ("CALIFORNIA", "7019"),
   ("SAN ANTONIO", "7020"), ("MV", "7021"), ("MOUNTAIN VIEW", "7021"),
   ("SUNNYVALE", "7022"), ("LAWRENCE", "7023"), ("SANTACLARA", "7024"),
   ("SANTA CLARA", "7024"), ("COLLEGEPARK", "7025"), ("COLLEGE PARK", "7025"),
   ("SJ", "7026"), ("DIRIDON", "7026"), ("TAMIEN", "7027"), ("CAPITOL", "7028"),
   ("BH", "7029"), ("BLOSSOM HILL", "7029"), ("MH", "7030"),
   ("MORGAN HILL", "7030"), ("SAN MARTIN", "7031"), ("GILROY", "7032")]

/-- `findGTFSStopId`: append a direction digit to the mapped base code
(1 for northbound direction "0", 2 for southbound direction "1"),
with the Stanford special case and a synthesized fallback identifier for
unmapped codes. -/
def findGTFSStopId (stationCode directionId : String) : String :=
  match (codeMapping.find? (fun p => p.1 == stationCode.toUpper)).map
      (fun p => p.2) with
  | none => stationCode ++ (if directionId == "0" then "1" else "2")
  | some baseCode =>
    if baseCode == "253774" then
      if directionId == "0" then "2537740" else "2537744"
    else baseCode ++ (if directionId == "0" then "1" else "2")

/-! ## The resolution pipeline (`getScheduledTrains`) -/

/-- Modelled from the spec: the `Train` output record of the types module
(the types file is absent from src); its fields are exactly those pushed
by `getScheduledTrains`, with the ISO timestamp strings represented by
their epoch-millisecond values. -/
structure Train where
  trainNumber : String
  tripId : String
  direction : String
  departureTime : Int
  arrivalTime : Int
  duration : Int
  type : TrainType
  deriving DecidableEq

/-- The parsed static dataset snapshot (`gtfsCache` minus the freshness
timestamp, which only feeds the loader's TTL check). -/
structure GtfsCache where
  stopTimes : List GTFSStopTime
  trips : List GTFSTrip
  calendar : List GTFSCalendar
  calendarDates : List GTFSCalendarDate
  deriving DecidableEq

/-- The query instant normalized to Pacific civil time: day-of-week
index, civil date parts, and the raw epoch-millisecond instant.  The
source derives these from the `Date` argument via the runtime's IANA
timezone database (`getPacificTimeInfo` / `toLocaleDateString`); the
embedding takes the normalized values as input. -/
structure DateInfo where
  dayOfWeek : Nat
  year : Nat
  month : Nat
  day : Nat
  nowMs : Int
  deriving DecidableEq

/-- The YYYYMMDD numeral of a normalized Pacific date. -/
def dateNat (di : DateInfo) : Nat :=
  di.year * 10000 + di.month * 100 + di.day

/-- JavaScript `Math.round(ms / 60000)` on integer milliseconds. -/
def jsRoundMsToMin (ms : Int) : Int :=
  Int.fdiv (ms + 30000) 60000

/-- The per-trip body of the `getScheduledTrains` loop: direction filter,
origin/destination stop lookup, materialization of the scheduled
instants, delay overlay, inclusion test, and construction of the output
record from the scheduled (undelayed) values. -/
def processTrip (stopTimes : List GTFSStopTime) (originStopId destStopId : String)
    (y m d : Nat) (nowMs : Int) (isNorthbound : Bool)
    (tripUpdates : List TripUpdate) (caltrainAlerts : List (String × TrainDelay))
    (trip : GTFSTrip) : Option Train :=
  let directionId := if isNorthbound then "0" else "1"
  if trip.direction_id != directionId then none
  else
    match stopTimes.find? (fun st =>
        st.trip_id == trip.trip_id && st.stop_id == originStopId) with
    | none => none
    | some originStop =>
      match stopTimes.find? (fun st =>
          st.trip_id == trip.trip_id && st.stop_id == destStopId) with
      | none => none
      | some destStop =>
        let depMs := materializeMs y m d originStop.departure_time.h
          originStop.departure_time.mi originStop.departure_time.s
        let arrMs := materializeMs y m d destStop.arrival_time.h
          destStop.arrival_time.mi destStop.arrival_time.s
        let actual := overlay trip.trip_id trip.trip_short_name depMs arrMs
          tripUpdates caltrainAlerts
        if includeTrain depMs actual.1 actual.2 nowMs then
          some {
            trainNumber :=
              if trip.trip_short_name != "" then trip.trip_short_name
              else trip.trip_id,
            tripId := trip.trip_id,
            direction := if isNorthbound then "Northbound" else "Southbound",
            departureTime := depMs,
            arrivalTime := arrMs,
            duration := jsRoundMsToMin (arrMs - depMs),
            type := trainTypeOf stopTimes trip.trip_id }
        else none

/-- The ascending-scheduled-departure order used by the final sort
(`(a, b) => a.departureTime - b.departureTime`). -/
def depLE (a b : Train) : Prop :=
  a.departureTime ≤ b.departureTime

instance : DecidableRel depLE := fun _ _ => Int.decLe _ _

instance : IsTotal Train depLE := ⟨fun _ _ => Int.le_total _ _⟩

instance : IsTrans Train depLE := ⟨fun _ _ _ h1 h2 => le_trans h1 h2⟩

/-- `getScheduledTrains`, the resolution entry point, on an
already-loaded snapshot: the `loaded` flag stands for the success result
of `fetchGTFSData` (the loader's I/O is outside the pure core).  Every
unrecoverable condition yields the empty list. -/
def getScheduledTrains (stations : List Station) (cache : GtfsCache)
    (loaded : Bool) (originStationId destinationStationId : String)
    (di : DateInfo) (tripUpdates : List TripUpdate)
    (caltrainAlerts : List (String × TrainDelay)) : List Train :=
  if !loaded || cache.trips.isEmpty then []
  else
    match getStationById stations originStationId,
        getStationById stations destinationStationId with
    | some originStation, some destinationStation =>
      match getActiveServiceId di.dayOfWeek (dateNat di) cache.calendar
          cache.calendarDates with
      | none => []
      | some serviceId =>
        let activeTrips := cache.trips.filter (fun t => t.service_id == serviceId)
        let originIndex := jsFindIndex (fun s => s.id == originStationId) stations
        let destIndex := jsFindIndex (fun s => s.id == destinationStationId) stations
        let isNorthbound := originIndex > destIndex
        let directionId := if isNorthbound then "0" else "1"
        let originStopId := findGTFSStopId originStation.code directionId
        let destStopId := findGTFSStopId destinationStation.code directionId
        let trains := activeTrips.filterMap
          (processTrip cache.stopTimes originStopId destStopId
            di.year di.month di.day di.nowMs isNorthbound tripUpdates caltrainAlerts)
        (trains.insertionSort depLE).take 5
    | _, _ => []

/-! ## Concrete example data used by witnesses and counterexamples -/

/-- The per-stop delay of maximum absolute magnitude of a list of
stop-time updates (the value `calculateTripDelay` accumulates when no
stop is cancelled). -/
def maxAbsDelay (l : List StopTimeUpdate) : Int :=
  l.foldl (fun acc stu =>
    if (stuDelay stu).natAbs > acc.natAbs then stuDelay stu else acc) 0

/-- A stop-time update marked SKIPPED that still carries a large numeric
delay, for the claim C5 witness. -/
def skippedStu : StopTimeUpdate :=
  { stopId := "s", stopSequence := 1,
    arrival := some { delay := 900, time := 0 },
    departure := some { delay := 900, time := 0 },
    scheduleRelationship := some "SKIPPED" }

/-- A trip update containing a SKIPPED stop, for the claim C5 witness. -/
def skippedUpdate : TripUpdate :=
  { tripId := "t5", routeId := "r", startDate := "", startTime := "",
    stopTimeUpdates := [skippedStu] }

/-- A stop-time update with a 20 second delay (rounds to 0 minutes), for
the claim C3 counterexample. -/
def slightStu : StopTimeUpdate :=
  { stopId := "s", stopSequence := 1,
    arrival := none,
    departure := some { delay := 20, time := 0 },
    scheduleRelationship := none }

/-- A realtime update for trip "t9" whose only per-stop delay rounds to
0 minutes, for the claim C3 counterexample. -/
def slightUpdate : TripUpdate :=
  { tripId := "t9", routeId := "r", startDate := "", startTime := "",
    stopTimeUpdates := [slightStu] }

/-- A scraped +5 minute delay for train "169". -/
def scraped169 : TrainDelay :=
  { trainShortName := "169", delayMinutes := 5 }

/-- A realtime update carrying a +13 minute (780 second) delay at its
single stop, for the claim C3 witness. -/
def delayedStu : StopTimeUpdate :=
  { stopId := "s", stopSequence := 1,
    arrival := some { delay := 780, time := 0 },
    departure := some { delay := 780, time := 0 },
    scheduleRelationship := none }

/-- A realtime update for trip "t2" that is 13 minutes late, for the
claim C3 witness. -/
def delayedUpdate : TripUpdate :=
  { tripId := "t2", routeId := "r", startDate := "", startTime := "",
    stopTimeUpdates := [delayedStu] }

/-- The empty dataset snapshot. -/
def emptyCache : GtfsCache :=
  { stopTimes := [], trips := [], calendar := [], calendarDates := [] }

/-- A normalized query instant (a Monday, 2024-07-01, midnight UTC
epoch), used by concrete examples. -/
def julyDi : DateInfo :=
  { dayOfWeek := 1, year := 2024, month := 7, day := 1, nowMs := 0 }

/-- A concrete southbound trip for the claim C10 witness. -/
def tripEx : GTFSTrip :=
  { trip_id := "t1", route_id := "r1", service_id := "wk",
    trip_short_name := "101", trip_headsign := "San Jose", direction_id := "1" }

/-- The trip's origin stop-time (departs 08:00:00 at stop "A"). -/
def stopTimeA : GTFSStopTime :=
  { trip_id := "t1", arrival_time := ⟨8, 0, 0⟩, departure_time := ⟨8, 0, 0⟩,
    stop_id := "A", stop_sequence := 1 }

/-- The trip's destination stop-time (arrives 08:45:00 at stop "B"). -/
def stopTimeB : GTFSStopTime :=
  { trip_id := "t1", arrival_time := ⟨8, 45, 0⟩, departure_time := ⟨8, 45, 0⟩,
    stop_id := "B", stop_sequence := 2 }

/-- The record `processTrip` emits for `tripEx` on 2024-07-01. -/
def trainEx : Train :=
  { trainNumber := "101", tripId := "t1", direction := "Southbound",
    departureTime := materializeMs 2024 7 1 8 0 0,
    arrivalTime := materializeMs 2024 7 1 8 45 0,
    duration := 45, type := TrainType.Express }

/-! ## Claim C1: extended-hour materialization and the DST offset -/

/-- Claim C1 as stated is false at a concrete input: materializing
hour 27:30:00 on service date 2024-03-09 (the day before the US
spring-forward) lands on civil date 2024-03-10 at 03:30, a PDT instant,
yet the source composes it with the service date's PST offset, so the
result differs from the claim's specified instant (which uses the later
date's own offset). -/
theorem claim_c1_counterexample :
    materializeMs 2024 3 9 27 30 0 ≠ specMaterializeMs 2024 3 9 27 30 0 := by
  decide

/-- Claim C1 (amended): materializing a stop time whose hour field is 24
or more on service date D yields the instant at (h mod 24):MM:SS on the
civil date D + (h div 24) days, but composed with the civil-time offset
in effect on the service date D itself (probed at noon UTC of D) — not
the later date's offset; both endpoints of a trip use this same
service-date offset.  When no DST transition separates D from the later
date (their offsets agree) the result coincides with the instant the
original claim specifies. -/
theorem claim_c1_amended (y m d h mi s : Nat)
    (hsame : isPDT (addDays (y, m, d) (h / 24)).1 (addDays (y, m, d) (h / 24)).2.1
      (addDays (y, m, d) (h / 24)).2.2 = isPDT y m d) :
    materializeMs y m d h mi s = specMaterializeMs y m d h mi s ∧
    materializeMs y m d h mi s =
      materializeMs y m d (h % 24) mi s + ((h / 24 : Nat) : Int) * 86400000 := by
  constructor
  · simp only [materializeMs, specMaterializeMs, pacOffsetMs]
    rw [hsame]
  · have h1 : h % 24 / 24 = 0 := Nat.div_eq_of_lt (Nat.mod_lt _ (by norm_num))
    have h2 : h % 24 % 24 = h % 24 := Nat.mod_mod_of_dvd _ (dvd_refl 24)
    simp only [materializeMs, h1, h2]
    push_cast
    ring

/-- Claim C1 amended, witnessed at hour 25:30 on 2024-07-01 (no DST
transition between the service date and the next civil day). -/
theorem claim_c1_witness :
    materializeMs 2024 7 1 25 30 0 = specMaterializeMs 2024 7 1 25 30 0 ∧
    materializeMs 2024 7 1 25 30 0 =
      materializeMs 2024 7 1 (25 % 24) 30 0 + ((25 / 24 : Nat) : Int) * 86400000 :=
  claim_c1_amended 2024 7 1 25 30 0 (by decide)

/-! ## Claim C6: inclusion test -/

/-- Claim C6: the inclusion test of the selector excludes a trip whose
actual (delay-adjusted) arrival is before the query instant; a trip whose
actual departure is before the query instant but whose actual arrival is
not is included exactly when a delay was applied (actual departure
differs from the scheduled one). -/
theorem claim_c6 (schedDep actualDep actualArr now : Int) :
    (actualArr < now → includeTrain schedDep actualDep actualArr now = false) ∧
    (actualDep < now → ¬ actualArr < now →
      (includeTrain schedDep actualDep actualArr now = true ↔ actualDep ≠ schedDep)) := by
  constructor
  · intro h
    simp [includeTrain, h]
  · intro hdep harr
    simp [includeTrain, harr, hdep, bne_iff_ne]

/-- Claim C6 witnessed: a trip that departed one minute ago with a delay
applied (actual departure 60000 ms before the query, scheduled departure
different) and arrival still ahead is included. -/
theorem claim_c6_witness :
    includeTrain 0 (-60000) 3600000 0 = true :=
  ((claim_c6 0 (-60000) 3600000 0).2 (by decide) (by decide)).mpr (by decide)

/-! ## Claim C7: train classification -/

/-- Claim C7: a trip's type is a function of the number of stop-time rows
bearing its trip id alone: 20 or more rows classify it Local, 13 to 19
Limited, fewer than 13 Express; in particular 20 rows give Local, 19 give
Limited and 12 give Express. -/
theorem claim_c7 (stopTimes : List GTFSStopTime) (tripId : String) :
    (20 ≤ tripStopCount stopTimes tripId →
      trainTypeOf stopTimes tripId = TrainType.Local) ∧
    (13 ≤ tripStopCount stopTimes tripId ∧ tripStopCount stopTimes tripId ≤ 19 →
      trainTypeOf stopTimes tripId = TrainType.Limited) ∧
    (tripStopCount stopTimes tripId < 13 →
      trainTypeOf stopTimes tripId = TrainType.Express) ∧
    trainTypeOfCount 20 = TrainType.Local ∧
    trainTypeOfCount 19 = TrainType.Limited ∧
    trainTypeOfCount 12 = TrainType.Express := by
  refine ⟨?_, ?_, ?_, by decide, by decide, by decide⟩ <;>
    · intro h
      simp only [trainTypeOf, trainTypeOfCount]
      split_ifs <;> first | rfl | omega

/-- Claim C7 witnessed: a trip with 20 stop-time rows is Local. -/
theorem claim_c7_witness :
    trainTypeOf (List.replicate 20 ⟨"t", ⟨0, 0, 0⟩, ⟨0, 0, 0⟩, "s", 0⟩) "t" =
      TrainType.Local :=
  (claim_c7 (List.replicate 20 ⟨"t", ⟨0, 0, 0⟩, ⟨0, 0, 0⟩, "s", 0⟩) "t").1 (by decide)

/-! ## Claim C2: calendar resolution -/

/-- The calendar scan loop returns the first calendar, in dataset order,
that satisfies the conjunction of the range, removed-exception and
weekday-flag conditions. -/
theorem scanCalendar_eq_find (dateN dow : Nat) (cds : List GTFSCalendarDate)
    (cal : List GTFSCalendar) :
    scanCalendar dateN dow cds cal =
      (cal.find? (fun c =>
        decide (c.start_date ≤ dateN) && decide (dateN ≤ c.end_date) &&
          calDayFlag c dow &&
          !(cds.find? (fun cd =>
              cd.date == dateN && cd.service_id == c.service_id &&
                cd.exception_type == "2")).isSome)).map (fun c => c.service_id) := by
  induction cal with
  | nil => rfl
  | cons c rest ih =>
    rw [scanCalendar, List.find?]
    by_cases hs : dateN < c.start_date
    · simp [hs, Nat.not_le.mpr hs, ih]
    · by_cases he : c.end_date < dateN
      · simp [hs, he, Nat.not_le.mpr he, ih]
      · by_cases hr : (cds.find? (fun cd =>
            cd.date == dateN && cd.service_id == c.service_id &&
              cd.exception_type == "2")).isSome
        · simp [hs, he, hr, ih]
        · by_cases hf : calDayFlag c dow
          · simp [hs, he, hr, hf, Nat.le_of_not_lt hs, Nat.le_of_not_lt he]
          · simp [hs, he, hr, hf, ih]

/-- Claim C2: the active-service resolver returns the service id of an
added exception for the exact normalized date when one exists, otherwise
the service id of the first calendar in dataset order whose inclusive
date range contains the normalized date, whose weekday flag for the
normalized day of week (0 = Sunday) is set, and without a removed
exception for that (service id, date); otherwise none. -/
theorem claim_c2 (dow dateN : Nat) (calendar : List GTFSCalendar)
    (calendarDates : List GTFSCalendarDate) :
    getActiveServiceId dow dateN calendar calendarDates =
      activeServiceSpec dow dateN calendar calendarDates := by
  rw [getActiveServiceId, activeServiceSpec]
  cases h : calendarDates.find? (fun cd =>
      cd.date == dateN && cd.exception_type == "1") with
  | some cd => rfl
  | none => exact scanCalendar_eq_find dateN dow calendarDates calendar

/-! ## Claim C5: cancellation dominates -/

/-- The delay scan reports cancellation whenever some stop-time update
carries a SKIPPED or CANCELED relationship, independent of the
accumulator. -/
theorem calcLoop_cancelled (l : List StopTimeUpdate) :
    ∀ acc : Int, (∃ stu ∈ l, isCancelRel stu = true) → (calcLoop l acc).2 = true := by
  induction l with
  | nil =>
    intro acc h
    obtain ⟨stu, hmem, _⟩ := h
    cases hmem
  | cons stu rest ih =>
    intro acc h
    rw [calcLoop]
    by_cases hc : isCancelRel stu = true
    · simp [hc]
    · rw [if_neg hc]
      obtain ⟨stu2, hmem, hrel⟩ := h
      rcases List.mem_cons.mp hmem with rfl | hmem2
      · exact absurd hrel hc
      · exact ih _ ⟨stu2, hmem2, hrel⟩

/-- Claim C5: a trip update in which some stop-time update is SKIPPED or
CANCELED yields a delay result with status cancelled, regardless of the
numeric delay fields of any stop-time update. -/
theorem claim_c5 (update : TripUpdate)
    (h : ∃ stu ∈ update.stopTimeUpdates, isCancelRel stu = true) :
    ∃ di, calculateTripDelay update = some di ∧ di.status = DelayStatus.cancelled := by
  have hne : update.stopTimeUpdates.isEmpty = false := by
    obtain ⟨stu, hmem, _⟩ := h
    cases hl : update.stopTimeUpdates with
    | nil => rw [hl] at hmem; cases hmem
    | cons a l => rfl
  have hc : (calcLoop update.stopTimeUpdates 0).2 = true :=
    calcLoop_cancelled update.stopTimeUpdates 0 h

  refine ⟨{ delay := jsRound60 (calcLoop update.stopTimeUpdates 0).1,
            status := DelayStatus.cancelled }, ?_, rfl⟩
  rw [calculateTripDelay, hne]
  simp [hc]

/-- Claim C5 witnessed: a trip with one SKIPPED stop and a large numeric
delay field still comes back cancelled. -/
theorem claim_c5_witness :
    ∃ di, calculateTripDelay skippedUpdate = some di ∧
      di.status = DelayStatus.cancelled :=
  claim_c5 skippedUpdate ⟨skippedStu, List.mem_singleton.mpr rfl, by decide⟩

/-! ## Claims C3 and C4: the delay overlay -/

/-- Without a cancelled stop, the delay scan is exactly the
maximum-absolute-magnitude fold. -/
theorem calcLoop_no_cancel (l : List StopTimeUpdate) :
    ∀ acc : Int, (∀ stu ∈ l, isCancelRel stu = false) →
      calcLoop l acc =
        (l.foldl (fun acc stu =>
          if (stuDelay stu).natAbs > acc.natAbs then stuDelay stu else acc) acc,
         false) := by
  induction l with
  | nil => intro acc _; rfl
  | cons stu rest ih =>
    intro acc h
    have hc : isCancelRel stu = false := h stu (List.mem_cons_self stu rest)
    rw [calcLoop, if_neg (by simp [hc]), List.foldl_cons]
    exact ih _ (fun s hs => h s (List.mem_cons_of_mem stu hs))

/-- A successful `find?` implies the list is nonempty. -/
theorem length_pos_of_find?_eq_some {α : Type} {p : α → Bool} {l : List α} {a : α}
    (h : l.find? p = some a) : 0 < l.length := by
  cases l with
  | nil => simp [List.find?] at h
  | cons x xs => simp

/-- Claim C3 as stated is false at a concrete input: trip "t9" has an
exact feed match with a single 20-second per-stop delay (its
maximum-magnitude delay rounds to 0 minutes) and is not cancelled, yet
with a scraped entry of +5 minutes for its train number the overlay
moves the actual departure away from scheduled + 0 minutes; the feed
delay is not the quantity that gets added. -/
theorem claim_c3_counterexample :
    getTripDelay [slightUpdate] "t9" none =
      some { delay := 0, status := DelayStatus.onTime } ∧
    (overlay "t9" "169" 0 0 [slightUpdate] [("169", scraped169)]).1 ≠
      0 + (0 : Int) * 60 * 1000 := by
  constructor
  · rfl
  · decide

/-- When the realtime feed yields a nonzero rounded delay for the trip,
the overlay adds it to both endpoints and the scraped source is not
consulted. -/
theorem overlay_feed_applied (tripId trainShortName : String) (dep arr : Int)
    (updates : List TripUpdate) (alerts : List (String × TrainDelay))
    (di : DelayInfo) (hlen : updates.length > 0)
    (hdi : getTripDelay updates tripId none = some di)
    (hdz : di.delay ≠ 0) :
    overlay tripId trainShortName dep arr updates alerts =
      (dep + di.delay * 60 * 1000, arr + di.delay * 60 * 1000) := by
  simp only [overlay, hdi]
  rw [if_pos hlen]
  rw [if_pos hdz]
  have hne : (dep + di.delay * 60 * 1000 == dep) = false := by
    rw [beq_eq_false_iff_ne]
    intro h
    apply hdz
    omega
  simp [hne]

/-- When the feed yields no match or a delay of exactly zero it leaves
the scheduled instants untouched, and a scraped entry for the train
short name is applied to both endpoints. -/
theorem overlay_scraped (tripId trainShortName : String) (dep arr : Int)
    (updates : List TripUpdate) (alerts : List (String × TrainDelay))
    (td : TrainDelay)
    (hfeed : getTripDelay updates tripId none = none ∨
      ∃ di, getTripDelay updates tripId none = some di ∧ di.delay = 0)
    (halert : mapGet alerts trainShortName = some td) :
    overlay tripId trainShortName dep arr updates alerts =
      (dep + td.delayMinutes * 60 * 1000, arr + td.delayMinutes * 60 * 1000) := by
  have halen : alerts.length > 0 := by
    cases alerts with
    | nil => simp [mapGet, List.find?] at halert
    | cons a l => simp
  simp only [overlay]
  by_cases hu : updates.length > 0
  · rw [if_pos hu]
    rcases hfeed with h | ⟨di, h, hz⟩
    · rw [h]
      simp [halen, halert]
    · rw [h]
      simp [hz, halen, halert]
  · rw [if_neg hu]
    simp [halen, halert]

/-- Claim C3 (amended): for a trip whose tripId has an exact feed match
and which is not cancelled, the feed delay equals the per-stop delay of
maximum absolute magnitude rounded to the nearest minute; when that
rounded delay is nonzero it is added identically to both the scheduled
departure and arrival instants and a delay is registered (the actual
departure differs from the scheduled one).  When it rounds to zero the
overlay instead falls through to the scraped-delay source (claim C4). -/
theorem claim_c3 (updates : List TripUpdate) (u : TripUpdate)
    (tripId trainShortName : String) (alerts : List (String × TrainDelay))
    (dep arr : Int)
    (hfind : updates.find? (fun x => x.tripId == tripId) = some u)
    (hnc : ∀ stu ∈ u.stopTimeUpdates, isCancelRel stu = false)
    (hd : jsRound60 (maxAbsDelay u.stopTimeUpdates) ≠ 0) :
    getTripDelay updates tripId none =
      some { delay := jsRound60 (maxAbsDelay u.stopTimeUpdates),
             status := DelayStatus.delayed } ∧
    overlay tripId trainShortName dep arr updates alerts =
      (dep + jsRound60 (maxAbsDelay u.stopTimeUpdates) * 60 * 1000,
       arr + jsRound60 (maxAbsDelay u.stopTimeUpdates) * 60 * 1000) ∧
    dep + jsRound60 (maxAbsDelay u.stopTimeUpdates) * 60 * 1000 ≠ dep := by
  have hne : u.stopTimeUpdates.isEmpty = false := by
    cases hl : u.stopTimeUpdates with
    | nil => exact absurd (by simp [maxAbsDelay, hl, jsRound60]) hd
    | cons a l => rfl
  have habs : (jsRound60 (maxAbsDelay u.stopTimeUpdates)).natAbs ≥ 1 :=
    Int.natAbs_pos.mpr hd
  have hdelay : getTripDelay updates tripId none =
      some { delay := jsRound60 (maxAbsDelay u.stopTimeUpdates),
             status := DelayStatus.delayed } := by
    simp only [getTripDelay, hfind]
    simp only [calculateTripDelay, hne, Bool.false_eq_true, if_false]
    simp only [maxAbsDelay] at habs ⊢
    rw [calcLoop_no_cancel u.stopTimeUpdates 0 hnc]
    simp [habs]
  refine ⟨hdelay, ?_, ?_⟩
  · have hlen : updates.length > 0 := length_pos_of_find?_eq_some hfind
    simpa using overlay_feed_applied tripId trainShortName dep arr updates alerts
      _ hlen hdelay (by simpa using hd)
  · intro hz
    apply hd
    omega

/-- Claim C3 witnessed on the spec's own example: a feed delay of +13
minutes for trip "t2" and no scraped entry yields actual departure =
scheduled + 13 minutes (and similarly for arrival), with a delay
registered. -/
theorem claim_c3_witness :
    getTripDelay [delayedUpdate] "t2" none =
      some { delay := jsRound60 (maxAbsDelay delayedUpdate.stopTimeUpdates),
             status := DelayStatus.delayed } ∧
    overlay "t2" "169" 0 2700000 [delayedUpdate] [] =
      (0 + jsRound60 (maxAbsDelay delayedUpdate.stopTimeUpdates) * 60 * 1000,
       2700000 + jsRound60 (maxAbsDelay delayedUpdate.stopTimeUpdates) * 60 * 1000) ∧
    0 + jsRound60 (maxAbsDelay delayedUpdate.stopTimeUpdates) * 60 * 1000 ≠ 0 :=
  claim_c3 [delayedUpdate] delayedUpdate "t2" "169" [] 0 2700000
    (by decide) (by decide) (by decide)

/-- Claim C4: for a trip for which the realtime feed yields no match or a
delay of exactly zero minutes, a scraped-delay entry keyed by the trip's
train short name is applied to both the scheduled departure and the
scheduled arrival instants. -/
theorem claim_c4 (tripId trainShortName : String) (dep arr : Int)
    (updates : List TripUpdate) (alerts : List (String × TrainDelay))
    (td : TrainDelay)
    (hfeed : getTripDelay updates tripId none = none ∨
      ∃ di, getTripDelay updates tripId none = some di ∧ di.delay = 0)
    (halert : mapGet alerts trainShortName = some td) :
    overlay tripId trainShortName dep arr updates alerts =
      (dep + td.delayMinutes * 60 * 1000, arr + td.delayMinutes * 60 * 1000) :=
  overlay_scraped tripId trainShortName dep arr updates alerts td hfeed halert

/-- Claim C4 witnessed on the spec's own example: a feed delay of 0 for
trip "t9" together with a scraped delay of +5 minutes for train "169"
results in the scraped +5 minutes applied to both endpoints. -/
theorem claim_c4_witness :
    overlay "t9" "169" 0 2700000 [slightUpdate] [("169", scraped169)] =
      (0 + scraped169.delayMinutes * 60 * 1000,
       2700000 + scraped169.delayMinutes * 60 * 1000) :=
  claim_c4 "t9" "169" 0 2700000 [slightUpdate] [("169", scraped169)] scraped169
    (Or.inr ⟨{ delay := 0, status := DelayStatus.onTime }, by decide, rfl⟩)
    (by decide)

/-! ## Claim C9: total, empty-on-failure resolution -/

/-- Claim C9: the resolution entry point always returns a list and
degrades to the empty list on every unrecoverable condition: dataset not
loaded or empty, unknown origin station, unknown destination station, or
no active service for the date.  (In the embedding the function is total,
so no error can propagate to the caller; an empty result is an ordinary
value.) -/
theorem claim_c9 (stations : List Station) (cache : GtfsCache) (loaded : Bool)
    (originStationId destinationStationId : String) (di : DateInfo)
    (tripUpdates : List TripUpdate) (caltrainAlerts : List (String × TrainDelay)) :
    ((loaded = false ∨ cache.trips = []) →
      getScheduledTrains stations cache loaded originStationId destinationStationId
        di tripUpdates caltrainAlerts = []) ∧
    (getStationById stations originStationId = none →
      getScheduledTrains stations cache loaded originStationId destinationStationId
        di tripUpdates caltrainAlerts = []) ∧
    (getStationById stations destinationStationId = none →
      getScheduledTrains stations cache loaded originStationId destinationStationId
        di tripUpdates caltrainAlerts = []) ∧
    (getActiveServiceId di.dayOfWeek (dateNat di) cache.calendar cache.calendarDates
        = none →
      getScheduledTrains stations cache loaded originStationId destinationStationId
        di tripUpdates caltrainAlerts = []) := by
  refine ⟨?_, ?_, ?_, ?_⟩
  · rintro (h | h)
    · simp [getScheduledTrains, h]
    · simp [getScheduledTrains, h]
  · intro h
    rw [getScheduledTrains]
    by_cases h0 : (!loaded || cache.trips.isEmpty) = true
    · rw [if_pos h0]
    · rw [if_neg h0, h]
  · intro h
    rw [getScheduledTrains]
    by_cases h0 : (!loaded || cache.trips.isEmpty) = true
    · rw [if_pos h0]
    · rw [if_neg h0, h]
      cases getStationById stations originStationId <;> rfl
  · intro h
    rw [getScheduledTrains]
    by_cases h0 : (!loaded || cache.trips.isEmpty) = true
    · rw [if_pos h0]
    · rw [if_neg h0]
      cases getStationById stations originStationId with
      | none => rfl
      | some o =>
        cases getStationById stations destinationStationId with
        | none => rfl
        | some dst => rw [h]

/-- Claim C9 witnessed: an unloaded, empty dataset yields the empty
train list for any query. -/
theorem claim_c9_witness :
    getScheduledTrains [] emptyCache false "SF" "SJ" julyDi [] [] = [] :=
  (claim_c9 [] emptyCache false "SF" "SJ" julyDi [] []).1 (Or.inl rfl)

/-! ## Claim C8: bounded, sorted output -/

/-- Claim C8: for every input the resolver returns at most 5 trains,
sorted ascending by the scheduled departure instant (the
`departureTime` field, which claim C10 shows is the undelayed
scheduled instant). -/
theorem claim_c8 (stations : List Station) (cache : GtfsCache) (loaded : Bool)
    (originStationId destinationStationId : String) (di : DateInfo)
    (tripUpdates : List TripUpdate) (caltrainAlerts : List (String × TrainDelay)) :
    (getScheduledTrains stations cache loaded originStationId destinationStationId
      di tripUpdates caltrainAlerts).length ≤ 5 ∧
    List.Pairwise (fun x y : Train => x.departureTime ≤ y.departureTime)
      (getScheduledTrains stations cache loaded originStationId destinationStationId
        di tripUpdates caltrainAlerts) := by
  have hkey : ∀ l : List Train,
      ((l.insertionSort depLE).take 5).length ≤ 5 ∧
        List.Pairwise depLE ((l.insertionSort depLE).take 5) := by
    intro l
    constructor
    · rw [List.length_take]
      exact min_le_left _ _
    · exact List.Pairwise.sublist (List.take_sublist 5 _)
        (List.sorted_insertionSort depLE l)
  rw [getScheduledTrains]
  split
  · exact ⟨by simp, List.Pairwise.nil⟩
  · split
    · split
      · exact ⟨by simp, List.Pairwise.nil⟩
      · exact hkey _
    · exact ⟨by simp, List.Pairwise.nil⟩

/-! ## Claim C10: delays never reach the emitted record -/

/-- Claim C10: the emitted record of a trip is independent of the feed
updates and the scraped delays (they only decide inclusion), and its
departureTime, arrivalTime and duration fields are the scheduled
(undelayed) materialized instants of the matched origin and destination
stop-times and their rounded difference in minutes. -/
theorem claim_c10 (stopTimes : List GTFSStopTime) (originStopId destStopId : String)
    (y m d : Nat) (nowMs : Int) (isNorthbound : Bool)
    (u1 u2 : List TripUpdate) (a1 a2 : List (String × TrainDelay))
    (trip : GTFSTrip) (t1 t2 : Train)
    (h1 : processTrip stopTimes originStopId destStopId y m d nowMs isNorthbound
      u1 a1 trip = some t1)
    (h2 : processTrip stopTimes originStopId destStopId y m d nowMs isNorthbound
      u2 a2 trip = some t2) :
    t1 = t2 ∧ ∃ originStop destStop,
      stopTimes.find? (fun st =>
        st.trip_id == trip.trip_id && st.stop_id == originStopId) = some originStop ∧
      stopTimes.find? (fun st =>
        st.trip_id == trip.trip_id && st.stop_id == destStopId) = some destStop ∧
      t1.departureTime = materializeMs y m d originStop.departure_time.h
        originStop.departure_time.mi originStop.departure_time.s ∧
      t1.arrivalTime = materializeMs y m d destStop.arrival_time.h
        destStop.arrival_time.mi destStop.arrival_time.s ∧
      t1.duration = jsRoundMsToMin (t1.arrivalTime - t1.departureTime) := by
  rw [processTrip] at h1 h2
  by_cases hdir : (trip.direction_id != (if isNorthbound then "0" else "1")) = true
  · rw [if_pos hdir] at h1
    exact Option.noConfusion h1
  · rw [if_neg hdir] at h1 h2
    cases hfo : stopTimes.find? (fun st =>
        st.trip_id == trip.trip_id && st.stop_id == originStopId) with
    | none =>
      rw [hfo] at h1
      exact Option.noConfusion h1
    | some originStop =>
      simp only [hfo] at h1 h2
      cases hfd : stopTimes.find? (fun st =>
          st.trip_id == trip.trip_id && st.stop_id == destStopId) with
      | none =>
        simp only [hfd] at h1
        exact Option.noConfusion h1
      | some destStop =>
        simp only [hfd] at h1 h2
        split at h1
        · split at h2
          · injection h1 with e1
            injection h2 with e2
            subst e1
            subst e2
            exact ⟨rfl, originStop, destStop, rfl, rfl, rfl, rfl, rfl⟩
          · exact Option.noConfusion h2
        · exact Option.noConfusion h1

/-- Claim C10 witnessed: processing `tripEx` without any delay source
and with a scraped +5 minute delay present yields the same record, whose
fields are the scheduled materialized instants and their difference. -/
theorem claim_c10_witness :
    trainEx = trainEx ∧ ∃ originStop destStop,
      [stopTimeA, stopTimeB].find? (fun st =>
        st.trip_id == tripEx.trip_id && st.stop_id == "A") = some originStop ∧
      [stopTimeA, stopTimeB].find? (fun st =>
        st.trip_id == tripEx.trip_id && st.stop_id == "B") = some destStop ∧
      trainEx.departureTime = materializeMs 2024 7 1 originStop.departure_time.h
        originStop.departure_time.mi originStop.departure_time.s ∧
      trainEx.arrivalTime = materializeMs 2024 7 1 destStop.arrival_time.h
        destStop.arrival_time.mi destStop.arrival_time.s ∧
      trainEx.duration = jsRoundMsToMin (trainEx.arrivalTime - trainEx.departureTime) :=
  claim_c10 [stopTimeA, stopTimeB] "A" "B" 2024 7 1 0 false
    [] [delayedUpdate] [] [("101", scraped169)] tripEx trainEx trainEx
    (by decide) (by decide)

end Caltrain
